import Mathlib

/- Verification of the two-agent 1D environment (thesisv2.py).

The environment holds two agent positions on the line 0..4, a goal at
position 4, and two agent policies. Each call to `step` queries both
policies on the pre-step state, moves both agents with clamping,
applies the collision penalty and then the goal bonus, and reports
positions, rewards, a done flag and per-agent info.

Positions and actions are embedded as `Int` (Python integers), rewards
as `Rat` (the Python floats involved are the exact values 0.0, -1.0,
1.0 and sums thereof, all exactly representable, so `Rat` is a faithful
model of the arithmetic performed). -/

/-- View of the environment a policy function receives when asked to act:
world constants together with the current (pre-step) agent positions.
This is the observable state of the Python `env` object handed to
`policy_func(env, state)`. -/
structure EnvView where
  num_positions : Int
  goal : Int
  num_actions : Int
  pos0 : Int
  pos1 : Int

/-- `NPCPolicy`: role label, decision function, optional goal parameter
(opaque, unused by the environment), display name. -/
structure NPCPolicy where
  role : String
  policy_func : EnvView → Int → Int
  goal : Option Int
  name : String

/-- The `NPCPolicy.__init__` defaults: a missing policy function becomes
`fun env state => 0` (always left) and a missing name defaults to the role. -/
def NPCPolicy.make (role : String) (pf : Option (EnvView → Int → Int))
    (goal : Option Int) (name : Option String) : NPCPolicy :=
  NPCPolicy.mk role (pf.getD (fun _ _ => 0)) goal (name.getD role)

/-- `NPCPolicy.act(env, state)`: invoke the wrapped decision function. -/
def NPCPolicy.act (p : NPCPolicy) (env : EnvView) (state : Int) : Int :=
  p.policy_func env state

/-- The environment: constants, the two agent policies, the two positions. -/
structure TwoAgentEnv where
  num_positions : Int
  goal : Int
  num_actions : Int
  agent0 : NPCPolicy
  agent1 : NPCPolicy
  pos0 : Int
  pos1 : Int

/-- The view of the environment that policies observe when acting. -/
def TwoAgentEnv.view (env : TwoAgentEnv) : EnvView :=
  EnvView.mk env.num_positions env.goal env.num_actions env.pos0 env.pos1

/-- `reset()`: set positions to `[0, 2]` and return a copy of them.
The returned pair is a separate value from the environment's own fields
(copy semantics). -/
def TwoAgentEnv.reset (env : TwoAgentEnv) : TwoAgentEnv × (Int × Int) :=
  (TwoAgentEnv.mk env.num_positions env.goal env.num_actions
    env.agent0 env.agent1 0 2,
   (0, 2))

/-- The assertion message of `TwoAgentEnv.__init__`. -/
def assertMessage : String := "This environment expects exactly 2 agents."

/-- `TwoAgentEnv.__init__(agent_policies)`: asserts the agent list has
length exactly 2, sets `num_positions = 5`, `goal = 4`, `num_actions = 2`,
stores the policies and calls `reset()`. The Python `assert` is embedded
as the error branch of `Except`. -/
def TwoAgentEnv.init (agent_policies : List NPCPolicy) :
    Except String TwoAgentEnv :=
  match agent_policies with
  | [a0, a1] =>
      Except.ok (TwoAgentEnv.reset (TwoAgentEnv.mk 5 4 2 a0 a1 0 2)).1
  | _ => Except.error assertMessage

/-- Per-agent info entry returned from `step`: role, name, post-step position. -/
structure AgentInfo where
  role : String
  name : String
  pos : Int

/-- Everything `step()` returns, plus the updated environment:
`(positions_copy, rewards, done, info)`. -/
structure StepResult where
  env : TwoAgentEnv
  positions : Int × Int
  rewards : Rat × Rat
  done : Bool
  info : List AgentInfo

/-- The position update of one agent inside `step`:
`if action == 0: pos = max(0, pos - 1) else: pos = min(num_positions - 1, pos + 1)`. -/
def moveOne (num_positions : Int) (action : Int) (p : Int) : Int :=
  if action = 0 then max 0 (p - 1) else min (num_positions - 1) (p + 1)

/-- `step()`: query both actions on the pre-step positions, initialize
rewards to `[0.0, 0.0]` and `done` to false, move both agents, overwrite
both rewards with `-1.0` on a non-goal collision, then for each agent at
the goal add `+1.0` to its reward and set `done`, and return the new
positions, rewards, done flag and info list. -/
def TwoAgentEnv.step (env : TwoAgentEnv) : StepResult :=
  let action0 := env.agent0.act env.view env.pos0
  let action1 := env.agent1.act env.view env.pos1
  let rewards0 : Rat × Rat := (0, 0)
  let done0 : Bool := false
  let p0 := moveOne env.num_positions action0 env.pos0
  let p1 := moveOne env.num_positions action1 env.pos1
  let rewards1 : Rat × Rat :=
    if p0 = p1 ∧ p0 ≠ env.goal then (-1, -1) else rewards0
  let r0 : Rat := if p0 = env.goal then rewards1.1 + 1 else rewards1.1
  let done1 : Bool := if p0 = env.goal then true else done0
  let r1 : Rat := if p1 = env.goal then rewards1.2 + 1 else rewards1.2
  let done2 : Bool := if p1 = env.goal then true else done1
  StepResult.mk
    (TwoAgentEnv.mk env.num_positions env.goal env.num_actions
      env.agent0 env.agent1 p0 p1)
    (p0, p1) (r0, r1) done2
    [AgentInfo.mk env.agent0.role env.agent0.name p0,
     AgentInfo.mk env.agent1.role env.agent1.name p1]

/-- Iterate `step` from an environment, keeping only the evolving state. -/
def TwoAgentEnv.stepN (env : TwoAgentEnv) : Nat → TwoAgentEnv
  | 0 => env
  | n + 1 => (TwoAgentEnv.stepN env n).step.env

/-- `ally_policy`: always move right (toward the goal). -/
def ally_policy : EnvView → Int → Int := fun _ _ => 1

/-- `competitive_policy`: always move left (away from the goal). -/
def competitive_policy : EnvView → Int → Int := fun _ _ => 0

/-- The `main_agent` of the example driver: role Main, ally policy. -/
def mainAgent : NPCPolicy := NPCPolicy.mk "Main" ally_policy none "main_agent"

/-- The `competitor_npc` of the example driver: role Competitive. -/
def competitorAgent : NPCPolicy :=
  NPCPolicy.mk "Competitive" competitive_policy none "competitor_npc"

/-- The environment of Scenario A (main agent vs. competitor) right after
construction and reset: positions `[0, 2]`. -/
def envA : TwoAgentEnv :=
  (TwoAgentEnv.reset (TwoAgentEnv.mk 5 4 2 mainAgent competitorAgent 0 2)).1

/-- Scenario A after three steps: positions `[3, 0]`, about to reach the goal. -/
def envNearGoal : TwoAgentEnv := envA.stepN 3

/- Helper lemmas shared by the claim proofs. -/

/-- Both components of the position update stay inside `[0, 4]` when the
input position is inside `[0, 4]`, for every action value. -/
theorem moveOne_mem (a p : Int) (h0 : 0 ≤ p) (h4 : p ≤ 4) :
    0 ≤ moveOne 5 a p ∧ moveOne 5 a p ≤ 4 := by
  unfold moveOne
  split
  · constructor
    · exact le_max_left 0 (p - 1)
    · exact max_le (by norm_num) (by omega)
  · constructor
    · exact le_min (by omega) (by omega)
    · exact min_le_left 4 (p + 1)

/-- `step` leaves the world constants and the agents unchanged. -/
theorem step_env_consts (env : TwoAgentEnv) :
    env.step.env.num_positions = env.num_positions
    ∧ env.step.env.goal = env.goal
    ∧ env.step.env.num_actions = env.num_actions
    ∧ env.step.env.agent0 = env.agent0
    ∧ env.step.env.agent1 = env.agent1 :=
  ⟨rfl, rfl, rfl, rfl, rfl⟩

/-- The positions stored in the updated environment are the returned ones. -/
theorem step_env_positions (env : TwoAgentEnv) :
    env.step.env.pos0 = env.step.positions.1
    ∧ env.step.env.pos1 = env.step.positions.2 :=
  ⟨rfl, rfl⟩

/-- The positions returned by `step` are the moved pre-step positions. -/
theorem step_positions_eq (env : TwoAgentEnv) :
    env.step.positions
      = (moveOne env.num_positions (env.agent0.act env.view env.pos0) env.pos0,
         moveOne env.num_positions (env.agent1.act env.view env.pos1) env.pos1) :=
  rfl

/-- The rewards returned by `step`, written as the collision overwrite
followed by the additive goal bonus. -/
theorem step_rewards_eq (env : TwoAgentEnv) :
    env.step.rewards
      = (if env.step.positions.1 = env.goal
            then (if env.step.positions.1 = env.step.positions.2
                      ∧ env.step.positions.1 ≠ env.goal
                    then (-1 : Rat) else 0) + 1
            else (if env.step.positions.1 = env.step.positions.2
                      ∧ env.step.positions.1 ≠ env.goal
                    then (-1 : Rat) else 0),
         if env.step.positions.2 = env.goal
            then (if env.step.positions.1 = env.step.positions.2
                      ∧ env.step.positions.1 ≠ env.goal
                    then (-1 : Rat) else 0) + 1
            else (if env.step.positions.1 = env.step.positions.2
                      ∧ env.step.positions.1 ≠ env.goal
                    then (-1 : Rat) else 0)) := by
  show (_, _) = _
  by_cases hc : env.step.positions.1 = env.step.positions.2
      ∧ env.step.positions.1 ≠ env.goal
    <;> by_cases h0 : env.step.positions.1 = env.goal
    <;> by_cases h1 : env.step.positions.2 = env.goal
    <;> simp only [TwoAgentEnv.step, step_positions_eq] at hc h0 h1 ⊢
    <;> simp [hc, h0, h1, Prod.ext_iff, apply_ite Prod.fst, apply_ite Prod.snd]

/-- The done flag returned by `step` is true exactly when one of the two
post-movement positions is the goal. -/
theorem step_done_eq (env : TwoAgentEnv) :
    env.step.done
      = (decide (env.step.positions.1 = env.goal)
          || decide (env.step.positions.2 = env.goal)) := by
  by_cases h0 : env.step.positions.1 = env.goal
    <;> by_cases h1 : env.step.positions.2 = env.goal
    <;> simp only [TwoAgentEnv.step, step_positions_eq] at h0 h1 ⊢
    <;> simp [h0, h1]

/-- `step` preserves membership of both positions in `[0, 4]` when the
world has five positions, whatever the policies return. -/
theorem step_preserves_range (env : TwoAgentEnv) (h5 : env.num_positions = 5)
    (h : 0 ≤ env.pos0 ∧ env.pos0 ≤ 4 ∧ 0 ≤ env.pos1 ∧ env.pos1 ≤ 4) :
    0 ≤ env.step.env.pos0 ∧ env.step.env.pos0 ≤ 4
    ∧ 0 ≤ env.step.env.pos1 ∧ env.step.env.pos1 ≤ 4 := by
  have e0 : env.step.env.pos0
      = moveOne env.num_positions (env.agent0.act env.view env.pos0) env.pos0 := rfl
  have e1 : env.step.env.pos1
      = moveOne env.num_positions (env.agent1.act env.view env.pos1) env.pos1 := rfl
  rw [e0, e1, h5]
  obtain ⟨h00, h04, h10, h14⟩ := h
  obtain ⟨u0, u4⟩ := moveOne_mem (env.agent0.act env.view env.pos0) env.pos0 h00 h04
  obtain ⟨v0, v4⟩ := moveOne_mem (env.agent1.act env.view env.pos1) env.pos1 h10 h14
  exact ⟨u0, u4, v0, v4⟩

/-- Iterating `step` never changes `num_positions`. -/
theorem stepN_num_positions (env : TwoAgentEnv) (n : Nat) :
    (env.stepN n).num_positions = env.num_positions := by
  induction n with
  | zero => rfl
  | succ n ih =>
      calc (env.stepN (n + 1)).num_positions
          = (env.stepN n).num_positions := (step_env_consts (env.stepN n)).1
        _ = env.num_positions := ih

/- The claim theorems. -/

/-- C1: in every call to `step`, if the two post-movement positions are
equal and that shared position is not the goal, both returned rewards are
exactly `-1.0` — the collision overwrite replaces the initial zero, for
every environment state and hence regardless of action history. -/
theorem claim1_collision_rewards (env : TwoAgentEnv)
    (heq : env.step.positions.1 = env.step.positions.2)
    (hgoal : env.step.positions.1 ≠ env.goal) :
    env.step.rewards = (-1, -1) := by
  have h2 : env.step.positions.2 ≠ env.goal := heq ▸ hgoal
  rw [step_rewards_eq]
  simp [heq, hgoal, h2]

/-- Witness for C1: in Scenario A the first step moves both agents to
position 1, a non-goal collision, and both rewards are `-1.0`. -/
theorem claim1_collision_rewards_witness :
    envA.step.positions.1 = envA.step.positions.2
    ∧ envA.step.positions.1 ≠ envA.goal
    ∧ envA.step.rewards = (-1, -1) :=
  ⟨by decide, by decide, claim1_collision_rewards envA (by decide) (by decide)⟩

/-- C2: in every call to `step`, an agent whose post-movement position is
the goal receives reward `0.0 + 1.0 = 1.0`, and the done flag is true
exactly when at least one of the two agents is at the goal. -/
theorem claim2_goal_reward_done (env : TwoAgentEnv) :
    (env.step.done = true ↔
      env.step.positions.1 = env.goal ∨ env.step.positions.2 = env.goal)
    ∧ (env.step.positions.1 = env.goal → env.step.rewards.1 = 1)
    ∧ (env.step.positions.2 = env.goal → env.step.rewards.2 = 1) := by
  refine ⟨?_, ?_, ?_⟩
  · rw [step_done_eq]
    simp
  · intro h
    rw [step_rewards_eq]
    simp [h]
  · intro h
    rw [step_rewards_eq]
    simp [h]

/-- Witness for C2: in Scenario A, after three steps the fourth step puts
agent 0 on the goal while agent 1 stays at 0; the done flag is true and
agent 0's reward is `1.0` even though agent 1 is not at the goal. -/
theorem claim2_goal_reward_done_witness :
    envNearGoal.step.positions.1 = envNearGoal.goal
    ∧ envNearGoal.step.positions.2 ≠ envNearGoal.goal
    ∧ envNearGoal.step.rewards.1 = 1
    ∧ envNearGoal.step.done = true :=
  ⟨by decide, by decide,
   (claim2_goal_reward_done envNearGoal).2.1 (by decide),
   (claim2_goal_reward_done envNearGoal).1.mpr (Or.inl (by decide))⟩

/-- C3: each `step` updates the positions with the clamped movement map
(action 0 sends p to max 0 (p-1), any other action to min 4 (p+1)), and
consequently, for every choice of policies — that is, every sequence of
actions — positions inside `[0, 4]` stay inside `[0, 4]` after any number
of steps; the clamp keeps 0 at 0 under action 0 and 4 at 4 under action 1. -/
theorem claim3_movement_and_bounds (env : TwoAgentEnv)
    (h5 : env.num_positions = 5)
    (hb : 0 ≤ env.pos0 ∧ env.pos0 ≤ 4 ∧ 0 ≤ env.pos1 ∧ env.pos1 ≤ 4) :
    (∀ a p : Int, moveOne 5 a p
        = if a = 0 then max 0 (p - 1) else min 4 (p + 1))
    ∧ env.step.positions.1
        = moveOne 5 (env.agent0.act env.view env.pos0) env.pos0
    ∧ env.step.positions.2
        = moveOne 5 (env.agent1.act env.view env.pos1) env.pos1
    ∧ (∀ n : Nat, 0 ≤ (env.stepN n).pos0 ∧ (env.stepN n).pos0 ≤ 4
        ∧ 0 ≤ (env.stepN n).pos1 ∧ (env.stepN n).pos1 ≤ 4)
    ∧ moveOne 5 0 0 = 0 ∧ moveOne 5 1 4 = 4 := by
  refine ⟨?_, ?_, ?_, ?_, by decide, by decide⟩
  · intro a p
    unfold moveOne
    norm_num
  · rw [step_positions_eq, h5]
  · rw [step_positions_eq, h5]
  · intro n
    induction n with
    | zero => exact hb
    | succ n ih =>
        have h5n : (env.stepN n).num_positions = 5 :=
          (stepN_num_positions env n).trans h5
        exact step_preserves_range (env.stepN n) h5n ih

/-- Witness for C3: applying the theorem to the Scenario A environment,
the first step's position of agent 0 is the moved pre-step position, and
after nine steps both positions are still inside `[0, 4]`. -/
theorem claim3_movement_and_bounds_witness :
    envA.step.positions.1 = moveOne 5 (envA.agent0.act envA.view envA.pos0) envA.pos0
    ∧ (0 ≤ (envA.stepN 9).pos0 ∧ (envA.stepN 9).pos0 ≤ 4
        ∧ 0 ≤ (envA.stepN 9).pos1 ∧ (envA.stepN 9).pos1 ≤ 4) :=
  ⟨(claim3_movement_and_bounds envA rfl (by decide)).2.1,
   (claim3_movement_and_bounds envA rfl (by decide)).2.2.2.1 9⟩

/-- C4: both actions of a `step` are computed from the same pre-step
position pair — each policy is invoked on the view holding the pre-step
positions and its own pre-step position — so two pairs of policies that
agree on that pre-step data produce identical positions, rewards and done
flag; no decision can observe a post-step position of the other agent. -/
theorem claim4_simultaneous_moves (np g na : Int)
    (a0 a1 b0 b1 : NPCPolicy) (p0 p1 : Int)
    (h0 : a0.policy_func (EnvView.mk np g na p0 p1) p0
        = b0.policy_func (EnvView.mk np g na p0 p1) p0)
    (h1 : a1.policy_func (EnvView.mk np g na p0 p1) p1
        = b1.policy_func (EnvView.mk np g na p0 p1) p1) :
    (TwoAgentEnv.mk np g na a0 a1 p0 p1).step.positions
        = (moveOne np (a0.policy_func (EnvView.mk np g na p0 p1) p0) p0,
           moveOne np (a1.policy_func (EnvView.mk np g na p0 p1) p1) p1)
    ∧ (TwoAgentEnv.mk np g na a0 a1 p0 p1).step.positions
        = (TwoAgentEnv.mk np g na b0 b1 p0 p1).step.positions
    ∧ (TwoAgentEnv.mk np g na a0 a1 p0 p1).step.rewards
        = (TwoAgentEnv.mk np g na b0 b1 p0 p1).step.rewards
    ∧ (TwoAgentEnv.mk np g na a0 a1 p0 p1).step.done
        = (TwoAgentEnv.mk np g na b0 b1 p0 p1).step.done := by
  refine ⟨rfl, ?_, ?_, ?_⟩
    <;> simp only [TwoAgentEnv.step, TwoAgentEnv.view, NPCPolicy.act]
    <;> simp only [h0, h1]

/-- A policy that coincides with `ally_policy` at position 0 but not at
position 3, used to witness that only the pre-step data matters. -/
def mainAgentVariant : NPCPolicy :=
  NPCPolicy.mk "Main" (fun _ s => if s = 3 then 0 else 1) none "main_variant"

/-- A policy that coincides with `competitive_policy` at position 2 but
not at position 0. -/
def competitorVariant : NPCPolicy :=
  NPCPolicy.mk "Competitive" (fun _ s => if s = 0 then 1 else 0) none
    "competitor_variant"

/-- Witness for C4: from the reset state `[0, 2]`, replacing both Scenario
A policies by variants that agree with them on the pre-step data leaves
positions, rewards and done flag of the step unchanged. -/
theorem claim4_simultaneous_moves_witness :
    (TwoAgentEnv.mk 5 4 2 mainAgent competitorAgent 0 2).step.positions
        = (moveOne 5 (mainAgent.policy_func (EnvView.mk 5 4 2 0 2) 0) 0,
           moveOne 5 (competitorAgent.policy_func (EnvView.mk 5 4 2 0 2) 2) 2)
    ∧ (TwoAgentEnv.mk 5 4 2 mainAgent competitorAgent 0 2).step.positions
        = (TwoAgentEnv.mk 5 4 2 mainAgentVariant competitorVariant 0 2).step.positions
    ∧ (TwoAgentEnv.mk 5 4 2 mainAgent competitorAgent 0 2).step.rewards
        = (TwoAgentEnv.mk 5 4 2 mainAgentVariant competitorVariant 0 2).step.rewards
    ∧ (TwoAgentEnv.mk 5 4 2 mainAgent competitorAgent 0 2).step.done
        = (TwoAgentEnv.mk 5 4 2 mainAgentVariant competitorVariant 0 2).step.done :=
  claim4_simultaneous_moves 5 4 2 mainAgent competitorAgent
    mainAgentVariant competitorVariant 0 2 (by decide) (by decide)

/-- C5: Scenario A (main agent always action 1, competitor always action 0),
from the reset state `[0, 2]`: step 1 gives positions `[1, 1]`, rewards
`[-1, -1]`, done false; step 2 gives `[2, 0]`, rewards `[0, 0]`, done false;
step 3 gives `[3, 0]`, rewards `[0, 0]`, done false; step 4 gives `[4, 0]`,
rewards `[1, 0]`, done true. -/
theorem claim5_scenarioA_trace :
    (envA.pos0 = 0 ∧ envA.pos1 = 2)
    ∧ (envA.step.positions = (1, 1)
        ∧ envA.step.rewards = (-1, -1) ∧ envA.step.done = false)
    ∧ ((envA.stepN 1).step.positions = (2, 0)
        ∧ (envA.stepN 1).step.rewards = (0, 0) ∧ (envA.stepN 1).step.done = false)
    ∧ ((envA.stepN 2).step.positions = (3, 0)
        ∧ (envA.stepN 2).step.rewards = (0, 0) ∧ (envA.stepN 2).step.done = false)
    ∧ ((envA.stepN 3).step.positions = (4, 0)
        ∧ (envA.stepN 3).step.rewards = (1, 0) ∧ (envA.stepN 3).step.done = true) := by
  refine ⟨⟨by decide, by decide⟩, ⟨by decide, by decide, by decide⟩,
    ⟨by decide, by decide, by decide⟩, ⟨by decide, by decide, by decide⟩,
    ⟨by decide, ?_, by decide⟩⟩
  norm_num [TwoAgentEnv.stepN, TwoAgentEnv.step, TwoAgentEnv.view, NPCPolicy.act,
    envA, TwoAgentEnv.reset, mainAgent, competitorAgent, ally_policy,
    competitive_policy, moveOne]

/-- C6: for every environment state, after any number of steps, `reset`
returns the pair `(0, 2)` and stores positions 0 and 2 in the environment;
the returned pair is a value of its own, so using it cannot alter the
environment's stored positions. -/
theorem claim6_reset_restores (env : TwoAgentEnv) (n : Nat) :
    env.reset.2 = (0, 2)
    ∧ env.reset.1.pos0 = 0 ∧ env.reset.1.pos1 = 2
    ∧ (env.stepN n).reset.2 = (0, 2)
    ∧ (env.stepN n).reset.1.pos0 = 0 ∧ (env.stepN n).reset.1.pos1 = 2 :=
  ⟨rfl, rfl, rfl, rfl, rfl, rfl⟩

/-- C7: constructing the environment with an agent list of length other
than 2 fails with the agent-count assertion message, and construction with
exactly two agents succeeds. -/
theorem claim7_agent_count (agents : List NPCPolicy) :
    (agents.length ≠ 2 → TwoAgentEnv.init agents = Except.error assertMessage)
    ∧ (agents.length = 2 → ∃ env, TwoAgentEnv.init agents = Except.ok env) := by
  constructor
  · intro h
    match agents with
    | [] => rfl
    | [a] => rfl
    | [a, b] => exact absurd rfl h
    | a :: b :: c :: t => rfl
  · intro h
    match agents with
    | [] => simp at h
    | [a] => simp at h
    | [a, b] => exact ⟨_, rfl⟩
    | a :: b :: c :: t => simp at h

/-- Witness for C7: one agent is rejected with the assertion message, two
agents are accepted. -/
theorem claim7_agent_count_witness :
    TwoAgentEnv.init [mainAgent] = Except.error assertMessage
    ∧ ∃ env, TwoAgentEnv.init [mainAgent, competitorAgent] = Except.ok env :=
  ⟨(claim7_agent_count [mainAgent]).1 (by decide),
   (claim7_agent_count [mainAgent, competitorAgent]).2 rfl⟩

/-- C8: the position update is total in the action: every action other
than 0 — including values outside 0 and 1 — moves exactly like action 1,
clamped right movement, and the result stays in `[0, 4]` whenever the
input position is in `[0, 4]`. -/
theorem claim8_invalid_action_total (a p : Int) (hne : a ≠ 0) :
    moveOne 5 a p = moveOne 5 1 p
    ∧ moveOne 5 a p = min 4 (p + 1)
    ∧ (0 ≤ p → p ≤ 4 → 0 ≤ moveOne 5 a p ∧ moveOne 5 a p ≤ 4) := by
  refine ⟨?_, ?_, fun h0 h4 => moveOne_mem a p h0 h4⟩
  · unfold moveOne
    rw [if_neg hne, if_neg one_ne_zero]
  · unfold moveOne
    rw [if_neg hne]
    norm_num

/-- Witness for C8: the invalid action 7 at position 3 behaves exactly
like action 1 and stays in range. -/
theorem claim8_invalid_action_total_witness :
    moveOne 5 7 3 = moveOne 5 1 3
    ∧ moveOne 5 7 3 = min 4 (3 + 1)
    ∧ (0 ≤ (3 : Int) → (3 : Int) ≤ 4 → 0 ≤ moveOne 5 7 3 ∧ moveOne 5 7 3 ≤ 4) :=
  claim8_invalid_action_total 7 3 (by decide)

/-- C9: whenever `step` reports done, no reward of that step is `-1.0`: a
collision puts both agents on a shared non-goal position, so neither is at
the goal and done is false; each reward with done true is 0 or 1. -/
theorem claim9_done_excludes_collision (env : TwoAgentEnv)
    (h : env.step.done = true) :
    (env.step.rewards.1 = 0 ∨ env.step.rewards.1 = 1)
    ∧ (env.step.rewards.2 = 0 ∨ env.step.rewards.2 = 1)
    ∧ env.step.rewards.1 ≠ -1 ∧ env.step.rewards.2 ≠ -1 := by
  rw [step_done_eq] at h
  simp only [Bool.or_eq_true, decide_eq_true_eq] at h
  have hc : ¬(env.step.positions.1 = env.step.positions.2
      ∧ env.step.positions.1 ≠ env.goal) := by
    rcases h with h | h
    · exact fun hx => hx.2 h
    · exact fun hx => hx.2 (hx.1.trans h)
  rw [step_rewards_eq]
  by_cases h0 : env.step.positions.1 = env.goal
    <;> by_cases h1 : env.step.positions.2 = env.goal
  · simp [h0, h1, hc]
    norm_num
  · simp [h0, h1, hc]
    norm_num
  · simp [h0, h1, hc]
    norm_num
  · exact absurd h (by simp [h0, h1])

/-- Witness for C9: the terminal step of Scenario A has done true and
rewards 1 and 0, neither equal to -1. -/
theorem claim9_done_excludes_collision_witness :
    envNearGoal.step.done = true
    ∧ (envNearGoal.step.rewards.1 = 0 ∨ envNearGoal.step.rewards.1 = 1)
    ∧ (envNearGoal.step.rewards.2 = 0 ∨ envNearGoal.step.rewards.2 = 1)
    ∧ envNearGoal.step.rewards.1 ≠ -1 ∧ envNearGoal.step.rewards.2 ≠ -1 :=
  ⟨by decide, claim9_done_excludes_collision envNearGoal (by decide)⟩

/-- C10: a successful construction already leaves the environment in the
reset state: positions 0 and 2, the world constants set, and the two given
agents stored, before any explicit call to reset. -/
theorem claim10_construction_resets (a0 a1 : NPCPolicy) (env : TwoAgentEnv)
    (h : TwoAgentEnv.init [a0, a1] = Except.ok env) :
    env.pos0 = 0 ∧ env.pos1 = 2
    ∧ env.num_positions = 5 ∧ env.goal = 4 ∧ env.num_actions = 2
    ∧ env.agent0 = a0 ∧ env.agent1 = a1 := by
  injection h with h2
  subst h2
  exact ⟨rfl, rfl, rfl, rfl, rfl, rfl, rfl⟩

/-- Witness for C10: constructing with the two Scenario A agents yields
exactly the reset environment, with positions 0 and 2. -/
theorem claim10_construction_resets_witness :
    TwoAgentEnv.init [mainAgent, competitorAgent] = Except.ok envA
    ∧ envA.pos0 = 0 ∧ envA.pos1 = 2 :=
  ⟨rfl, (claim10_construction_resets mainAgent competitorAgent envA rfl).1,
   (claim10_construction_resets mainAgent competitorAgent envA rfl).2.1⟩
